import Mathlib

/-!
Verification of the crawlee-cloud storage and orchestration API.

This file gives a shallow embedding of the parts of the code that the
checked properties are about:

* packages/api/src/routes/key-value-stores.ts (request-queue routes:
  computeUniqueKey, AddRequest, AddRequestsBatch, GetHead, UpdateRequest,
  ProlongLock),
* the Redis head-cache and lock helpers (storage/redis.ts),
* packages/api/src/routes/runs.ts (UpdateStatus, AbortRun, ResurrectRun),
* the dataset routes (PushItems) and storage/s3.ts (listDatasetItems),
* the runner job queue (processNextRun).

SQL tables are lists of row structures, the database clock is an explicit
`now : Nat` argument, and nanoid() values are passed in as parameters.
-/

namespace CrawleeCloud

/-! ## SHA-256 and base64 (Node crypto calls used by computeUniqueKey) -/

/-- Modulus for 32-bit words in SHA-256. -/
def w32 : Nat := 4294967296

/-- Right rotation of a 32-bit word. -/
def rotr32 (n x : Nat) : Nat := ((x >>> n) ||| (x <<< (32 - n))) % w32

def shaCh (e f g : Nat) : Nat := (e &&& f) ^^^ ((e ^^^ (w32 - 1)) &&& g)

def shaMaj (a b c : Nat) : Nat := (a &&& b) ^^^ (a &&& c) ^^^ (b &&& c)

def bigSigma0 (x : Nat) : Nat := rotr32 2 x ^^^ rotr32 13 x ^^^ rotr32 22 x

def bigSigma1 (x : Nat) : Nat := rotr32 6 x ^^^ rotr32 11 x ^^^ rotr32 25 x

def smallSigma0 (x : Nat) : Nat := rotr32 7 x ^^^ rotr32 18 x ^^^ (x >>> 3)

def smallSigma1 (x : Nat) : Nat := rotr32 17 x ^^^ rotr32 19 x ^^^ (x >>> 10)

/-- Round-constant table of SHA-256 (fractional cube roots of the first 64
primes), written in decimal. -/
def shaK : List Nat :=
  [1116352408, 1899447441, 3049323471, 3921009573, 961987163, 1508970993,
   2453635748, 2870763221, 3624381080, 310598401, 607225278, 1426881987,
   1925078388, 2162078206, 2614888103, 3248222580, 3835390401, 4022224774,
   264347078, 604807628, 770255983, 1249150122, 1555081692, 1996064986,
   2554220882, 2821834349, 2952996808, 3210313671, 3336571891, 3584528711,
   113926993, 338241895, 666307205, 773529912, 1294757372, 1396182291,
   1695183700, 1986661051, 2177026350, 2456956037, 2730485921, 2820302411,
   3259730800, 3345764771, 3516065817, 3600352804, 4094571909, 275423344,
   430227734, 506948616, 659060556, 883997877, 958139571, 1322822218,
   1537002063, 1747873779, 1955562222, 2024104815, 2227730452, 2361852424,
   2428436474, 2756734187, 3204031479, 3329325298]

/-- Initial hash state of SHA-256, written in decimal. -/
def shaH0 : List Nat :=
  [1779033703, 3144134277, 1013904242, 2773480762,
   1359893119, 2600822924, 528734635, 1541459225]

/-- Pad a byte message per SHA-256: append 0x80, zeros, and the 64-bit big-endian bit length. -/
def sha256Pad (msg : List Nat) : List Nat :=
  let bitLen := msg.length * 8
  let padZeros := (55 + 64 - msg.length % 64) % 64
  msg ++ [0x80] ++ List.replicate padZeros 0 ++
    (List.range 8).map (fun i => (bitLen >>> ((7 - i) * 8)) % 256)

/-- Big-endian 32-bit words from bytes. -/
def bytesToWords : List Nat → List Nat
  | b0 :: b1 :: b2 :: b3 :: rest =>
      ((((b0 <<< 8) ||| b1) <<< 8 ||| b2) <<< 8 ||| b3) :: bytesToWords rest
  | _ => []

/-- Extend the 16 block words to the 64-entry message schedule. -/
def shaSchedule (block : List Nat) : Array Nat :=
  (List.range 48).foldl
    (fun w _ =>
      let i := w.size
      w.push ((smallSigma1 (w.getD (i - 2) 0) + w.getD (i - 7) 0 +
               smallSigma0 (w.getD (i - 15) 0) + w.getD (i - 16) 0) % w32))
    block.toArray

/-- One round of the SHA-256 compression function. -/
def shaRound (st : List Nat) (kw : Nat × Nat) : List Nat :=
  match st with
  | [a, b, c, d, e, f, g, h] =>
      let t1 := (h + bigSigma1 e + shaCh e f g + kw.1 + kw.2) % w32
      let t2 := (bigSigma0 a + shaMaj a b c) % w32
      [(t1 + t2) % w32, a, b, c, (d + t1) % w32, e, f, g]
  | st => st

/-- Compress one 64-byte block into the hash state. -/
def shaCompress (h : List Nat) (block : List Nat) : List Nat :=
  let ws := (shaSchedule (bytesToWords block)).toList
  let out := (shaK.zip ws).foldl shaRound h
  (h.zip out).map (fun p => (p.1 + p.2) % w32)

/-- SHA-256 of a byte list, returned as the 32 digest bytes. -/
def sha256 (msg : List Nat) : List Nat :=
  let padded := sha256Pad msg
  let blocks := (List.range (padded.length / 64)).map (fun i => (padded.drop (i * 64)).take 64)
  let h := blocks.foldl shaCompress shaH0
  h.flatMap (fun word => (List.range 4).map (fun i => (word >>> ((3 - i) * 8)) % 256))

def b64Char (n : Nat) : Char :=
  "ABCDEFGHIJKLMNOPQRSTUVWXYZabcdefghijklmnopqrstuvwxyz0123456789+/".toList.getD n 'A'

/-- Standard base64 encoding of a byte list. -/
def base64Encode : List Nat → String
  | b0 :: b1 :: b2 :: rest =>
      let n := (b0 <<< 16) ||| (b1 <<< 8) ||| b2
      ⟨[b64Char ((n >>> 18) &&& 63), b64Char ((n >>> 12) &&& 63),
        b64Char ((n >>> 6) &&& 63), b64Char (n &&& 63)]⟩ ++ base64Encode rest
  | [b0, b1] =>
      let n := (b0 <<< 16) ||| (b1 <<< 8)
      ⟨[b64Char ((n >>> 18) &&& 63), b64Char ((n >>> 12) &&& 63), b64Char ((n >>> 6) &&& 63), '=']⟩
  | [b0] =>
      let n := b0 <<< 16
      ⟨[b64Char ((n >>> 18) &&& 63), b64Char ((n >>> 12) &&& 63), '=', '=']⟩
  | [] => ""

/-- UTF-8 bytes of a string (what Node hashing sees for a string input). -/
def utf8Bytes (s : String) : List Nat := s.toUTF8.toList.map (fun b => b.toNat)

/-- First 8 chars of the base64 SHA-256 of the payload, as in
createHash('sha256').update(payload).digest('base64').slice(0, 8). -/
def hash8 (payload : String) : String := (base64Encode (sha256 (utf8Bytes payload))).take 8

/-! ## computeUniqueKey (key-value-stores.ts lines 944-967) -/

/-- Character-level lowercasing (url.toLowerCase()). -/
def lowerChars (l : List Char) : List Char := l.map Char.toLower

/-- The whitespace characters stripped by trim(). -/
def isWsChar (c : Char) : Bool := c == ' ' || c == '\t' || c == '\n' || c == '\r'

/-- Character-level trim() of both ends. -/
def trimChars (l : List Char) : List Char :=
  ((l.dropWhile isWsChar).reverse.dropWhile isWsChar).reverse

/-- URL normalization of computeUniqueKey: lowercase, trim, drop one
trailing slash, drop the fragment (in exactly that order). -/
def normalizeUrl (url : String) : String :=
  let cs := trimChars (lowerChars url.toList)
  let cs := if cs.getLast? = some '/' then cs.dropLast else cs
  ⟨cs.takeWhile (fun c => c ≠ '#')⟩

/-- computeUniqueKey(url, method, payload?): the extended form is used only
when the method is not GET and the payload is truthy (present, non-empty). -/
def computeUniqueKey (url method : String) (payload : Option String) : String :=
  let normalizedUrl := normalizeUrl url
  match payload with
  | some p =>
      if method ≠ "GET" ∧ p ≠ "" then method ++ "(" ++ hash8 p ++ "):" ++ normalizedUrl
      else normalizedUrl
  | none => normalizedUrl

/-- JS a || b for an optional string a: undefined and the empty string fall
through to b. Models expressions like body.method || 'GET'. -/
def jsOr (a : Option String) (b : String) : String :=
  match a with
  | some s => if s = "" then b else s
  | none => b

/-- JS a || null for an optional string: the empty string becomes null.
Models expressions like body.payload || null. -/
def jsOrNull (a : Option String) : Option String :=
  match a with
  | some s => if s = "" then none else some s
  | none => none

/-! ## Request-queue data model (tables request_queues and requests, Redis state) -/

/-- Error responses of the routes (HTTP status plus message family). -/
inductive ApiError
  /-- An HTTP 404 with the given message. -/
  | notFound (message : String)
  /-- The HTTP 409 'Request is locked by another client' response. -/
  | lockedByOther
  /-- An HTTP 500 from an unhandled exception (for example a failed blob write). -/
  | internalError
  deriving Repr, DecidableEq

/-- A row of request_queues. -/
structure QueueRow where
  id : String
  name : Option String
  totalRequestCount : Int
  handledRequestCount : Int
  pendingRequestCount : Int
  hadMultipleClients : Bool
  deriving Repr, DecidableEq

/-- A row of requests. -/
structure RequestRow where
  id : String
  queueId : String
  uniqueKey : String
  url : String
  method : String
  payload : Option String
  retryCount : Nat
  noRetry : Bool
  errorMessages : Option (List String)
  headers : Option String
  userData : Option String
  handledAt : Option Nat
  orderNo : Nat
  lockedUntil : Option Nat
  lockedBy : Option String
  deriving Repr, DecidableEq

/-- A member of the Redis sorted set queue:(queueId):head. -/
structure HeadEntry where
  queueId : String
  requestId : String
  score : Int
  deriving Repr, DecidableEq

/-- A Redis lock key queue:(queueId):lock:(requestId) with its holder and expiry. -/
structure RedisLock where
  queueId : String
  requestId : String
  holder : String
  expiresAt : Nat
  deriving Repr, DecidableEq

/-- The request-queue part of the system: the two SQL tables, the BIGSERIAL
sequence backing requests.order_no, and the Redis state. -/
structure Sys where
  queues : List QueueRow
  requests : List RequestRow
  nextOrderNo : Nat
  redisHead : List HeadEntry
  redisLocks : List RedisLock
  deriving Repr, DecidableEq

/-! ## Redis helpers (storage/redis.ts) -/

/-- addToQueueHead: redis.zadd of the request id with the given score
(zadd replaces the score of an existing member). -/
def addToQueueHead (sys : Sys) (queueId requestId : String) (orderNo : Int) : Sys :=
  { sys with redisHead :=
      ⟨queueId, requestId, orderNo⟩ ::
        sys.redisHead.filter (fun e => !(e.queueId == queueId && e.requestId == requestId)) }

/-- removeFromQueueHead: redis.zrem. -/
def removeFromQueueHead (sys : Sys) (queueId requestId : String) : Sys :=
  { sys with redisHead :=
      sys.redisHead.filter (fun e => !(e.queueId == queueId && e.requestId == requestId)) }

/-- The live (unexpired) Redis lock for a request, if any. -/
def findRedisLock (sys : Sys) (now : Nat) (queueId requestId : String) : Option RedisLock :=
  sys.redisLocks.find? (fun l =>
    l.queueId == queueId && l.requestId == requestId && decide (now < l.expiresAt))

/-- lockRequest: SET key clientKey EX lockSecs NX. Returns true (and stores
the lock) only when no live lock exists for the key. -/
def lockRequest (sys : Sys) (now : Nat) (queueId requestId clientKey : String) (lockSecs : Nat) :
    Bool × Sys :=
  match findRedisLock sys now queueId requestId with
  | some _ => (false, sys)
  | none =>
      (true, { sys with redisLocks :=
          ⟨queueId, requestId, clientKey, now + lockSecs⟩ ::
            sys.redisLocks.filter (fun l => !(l.queueId == queueId && l.requestId == requestId)) })

/-- prolongLock: fails unless the current holder equals clientKey, else
re-sets the expiry. A missing or expired key reads as nil, which never
equals clientKey. -/
def prolongLock (sys : Sys) (now : Nat) (queueId requestId clientKey : String) (lockSecs : Nat) :
    Bool × Sys :=
  match findRedisLock sys now queueId requestId with
  | some l =>
      if l.holder = clientKey then
        (true, { sys with redisLocks :=
            ⟨queueId, requestId, clientKey, now + lockSecs⟩ ::
              sys.redisLocks.filter (fun x => !(x.queueId == queueId && x.requestId == requestId)) })
      else (false, sys)
  | none => (false, sys)

/-- releaseLock: deletes the key only when the current holder equals clientKey. -/
def releaseLock (sys : Sys) (now : Nat) (queueId requestId clientKey : String) : Bool × Sys :=
  match findRedisLock sys now queueId requestId with
  | some l =>
      if l.holder = clientKey then
        (true, { sys with redisLocks :=
            sys.redisLocks.filter (fun x => !(x.queueId == queueId && x.requestId == requestId)) })
      else (false, sys)
  | none => (false, sys)

/-! ## SQL helpers shared by the request-queue routes -/

/-- SELECT * FROM request_queues WHERE id = x OR name = x (first row). -/
def findQueue (sys : Sys) (queueId : String) : Option QueueRow :=
  sys.queues.find? (fun q => q.id == queueId || q.name == some queueId)

/-- UPDATE request_queues SET ... WHERE id = qId. -/
def updateQueue (sys : Sys) (qId : String) (f : QueueRow → QueueRow) : Sys :=
  { sys with queues := sys.queues.map (fun q => if q.id = qId then f q else q) }

/-- UPDATE requests SET ... WHERE id = rId. -/
def updateRequestRow (sys : Sys) (rId : String) (f : RequestRow → RequestRow) : Sys :=
  { sys with requests := sys.requests.map (fun r => if r.id = rId then f r else r) }

/-- The get-or-create-queue prelude of the AddRequest and batch routes: when
no queue matches by id or name, INSERT a row whose id is a fresh nanoid for
the literal queue id 'default' and the supplied id otherwise (name NULL for
'default'), then re-select it by id. -/
def getOrCreateQueue (sys : Sys) (queueId freshId : String) : QueueRow × Sys :=
  match findQueue sys queueId with
  | some q => (q, sys)
  | none =>
      let id := if queueId = "default" then freshId else queueId
      let name := if queueId = "default" then none else some queueId
      match sys.queues.find? (fun q => q.id == id) with
      | some q => (q, sys)
      | none =>
          let q : QueueRow := ⟨id, name, 0, 0, 0, false⟩
          (q, { sys with queues := sys.queues ++ [q] })

/-! ## AddRequest (POST /request-queues/:queueId/requests, lines 505-600) -/

/-- The request body of AddRequest. -/
structure AddRequestBody where
  url : String
  uniqueKey : Option String
  method : Option String
  payload : Option String
  headers : Option String
  userData : Option String
  noRetry : Option Bool
  deriving Repr, DecidableEq

/-- The data object returned by AddRequest and UpdateRequest. -/
structure OperationInfo where
  requestId : String
  wasAlreadyPresent : Bool
  wasAlreadyHandled : Bool
  deriving Repr, DecidableEq

/-- AddRequest. freshQueueId and freshRequestId stand for the two nanoid()
calls. The new row takes its order_no from the BIGSERIAL sequence; only the
Redis head cache receives the forefront-negated score. -/
def addRequest (sys0 : Sys) (queueId : String) (forefront : Bool) (body : AddRequestBody)
    (freshQueueId freshRequestId : String) : OperationInfo × Sys :=
  let gc := getOrCreateQueue sys0 queueId freshQueueId
  let qId := gc.1.id
  let sys := gc.2
  let uniqueKey := jsOr body.uniqueKey (computeUniqueKey body.url (jsOr body.method "GET") body.payload)
  match sys.requests.find? (fun r => r.queueId == qId && r.uniqueKey == uniqueKey) with
  | some existing =>
      ({ requestId := existing.id, wasAlreadyPresent := true,
         wasAlreadyHandled := existing.handledAt.isSome }, sys)
  | none =>
      let orderNo := sys.nextOrderNo
      let newReq : RequestRow :=
        { id := freshRequestId, queueId := qId, uniqueKey := uniqueKey, url := body.url,
          method := jsOr body.method "GET", payload := jsOrNull body.payload, retryCount := 0,
          noRetry := body.noRetry.getD false, errorMessages := none, headers := body.headers,
          userData := body.userData, handledAt := none, orderNo := orderNo,
          lockedUntil := none, lockedBy := none }
      let sys := { sys with requests := sys.requests ++ [newReq], nextOrderNo := orderNo + 1 }
      let sys := updateQueue sys qId (fun q =>
        { q with totalRequestCount := q.totalRequestCount + 1,
                 pendingRequestCount := q.pendingRequestCount + 1 })
      let orderModifier : Int := if forefront then -1 else 1
      let sys := addToQueueHead sys qId freshRequestId ((orderNo : Int) * orderModifier)
      ({ requestId := freshRequestId, wasAlreadyPresent := false, wasAlreadyHandled := false }, sys)

/-! ## GetHead (GET /request-queues/:queueId/head, lines 376-410) -/

/-- The WHERE clause of the head query: pending and not live-locked. -/
def requestAvailable (now : Nat) (qId : String) (r : RequestRow) : Bool :=
  r.queueId == qId && r.handledAt == none &&
    (match r.lockedUntil with | none => true | some t => decide (t < now))

/-- Insert into a list kept ascending by order_no. -/
def insertByOrder (r : RequestRow) : List RequestRow → List RequestRow
  | [] => [r]
  | x :: xs => if r.orderNo ≤ x.orderNo then r :: x :: xs else x :: insertByOrder r xs

/-- ORDER BY order_no ASC. -/
def sortByOrderNo (l : List RequestRow) : List RequestRow := l.foldr insertByOrder []

/-- GetHead: the pending, unlocked requests of the queue in ascending
order_no, limited. Reads only the SQL table, never the Redis head cache. -/
def getHead (sys : Sys) (now : Nat) (queueId : String) (limit : Nat) :
    Except ApiError (List RequestRow) :=
  match findQueue sys queueId with
  | none => .error (.notFound "Request queue not found")
  | some q =>
      .ok ((sortByOrderNo (sys.requests.filter (requestAvailable now q.id))).take limit)

/-! ## UpdateRequest (PUT /request-queues/:queueId/requests/:requestId, lines 764-857) -/

/-- The request body of UpdateRequest; a field is some when present in the patch. -/
structure UpdateRequestBody where
  handledAt : Option Nat
  retryCount : Option Nat
  errorMessages : Option (List String)
  userData : Option String
  deriving Repr, DecidableEq

/-- The SET clauses of UpdateRequest: patch fields that are present and
always clear locked_until and locked_by. -/
def applyRequestPatch (u : UpdateRequestBody) (r : RequestRow) : RequestRow :=
  { r with
    handledAt := match u.handledAt with | some t => some t | none => r.handledAt
    retryCount := u.retryCount.getD r.retryCount
    errorMessages := match u.errorMessages with | some e => some e | none => r.errorMessages
    userData := match u.userData with | some d => some d | none => r.userData
    lockedUntil := none
    lockedBy := none }

/-- UpdateRequest. Rejects with 409 when the request is live-locked by a
different client; otherwise patches the row, clears the lease, and on a
first transition to handled bumps the queue counters and evicts the request
from the Redis head cache. -/
def updateRequest (sys : Sys) (now : Nat) (queueId requestId : String)
    (updates : UpdateRequestBody) (clientKey : Option String) :
    Except ApiError OperationInfo × Sys :=
  match findQueue sys queueId with
  | none => (.error (.notFound "Request not found"), sys)
  | some q =>
      match sys.requests.find? (fun r => r.queueId == q.id && r.id == requestId) with
      | none => (.error (.notFound "Request not found"), sys)
      | some existing =>
          let isLocked := match existing.lockedUntil with
            | some t => decide (now < t)
            | none => false
          if isLocked && existing.lockedBy.isSome && decide (clientKey ≠ existing.lockedBy) then
            (.error .lockedByOther, sys)
          else
            let wasHandled := existing.handledAt.isSome
            let willBeHandled := updates.handledAt.isSome
            let sys := updateRequestRow sys requestId (applyRequestPatch updates)
            let sys := (releaseLock sys now existing.queueId requestId (existing.lockedBy.getD "")).2
            let sys :=
              if !wasHandled && willBeHandled then
                let sys := updateQueue sys existing.queueId (fun qq =>
                  { qq with handledRequestCount := qq.handledRequestCount + 1,
                            pendingRequestCount := qq.pendingRequestCount - 1 })
                removeFromQueueHead sys existing.queueId requestId
              else sys
            (.ok { requestId := requestId, wasAlreadyPresent := true,
                   wasAlreadyHandled := wasHandled }, sys)

/-! ## ProlongLock route (PUT /request-queues/:queueId/requests/:requestId/lock, lines 864-904) -/

/-- The lock-prolong route. It calls the Redis lockRequest helper (SET NX),
ignores its result, then unconditionally extends locked_until in SQL and
returns the new expiry; no clientKey-versus-holder check is made anywhere. -/
def prolongLockRoute (sys : Sys) (now : Nat) (queueId requestId clientKey : String)
    (lockSecs : Nat) : Except ApiError Nat × Sys :=
  match findQueue sys queueId with
  | none => (.error (.notFound "Request queue not found"), sys)
  | some q =>
      match sys.requests.find? (fun r => r.id == requestId && r.queueId == q.id) with
      | none => (.error (.notFound "Request not found"), sys)
      | some _ =>
          let sys := (lockRequest sys now q.id requestId clientKey lockSecs).2
          let sys := updateRequestRow sys requestId
            (fun r => { r with lockedUntil := some (now + lockSecs) })
          (.ok (now + lockSecs), sys)

/-! ## AddRequestsBatch (POST /request-queues/:queueId/requests/batch, lines 605-734) -/

/-- One element of the batch body. -/
structure BatchItem where
  url : String
  uniqueKey : Option String
  method : Option String
  payload : Option String
  userData : Option String
  deriving Repr, DecidableEq

/-- One element of processedRequests in the batch response. -/
structure BatchProcessed where
  requestId : String
  uniqueKey : String
  wasAlreadyPresent : Bool
  wasAlreadyHandled : Bool
  deriving Repr, DecidableEq

/-- One dedup-check-then-insert step of the batch route. -/
def batchStep (qId : String) (acc : List BatchProcessed × Sys) (p : BatchItem × String) :
    List BatchProcessed × Sys :=
  let (processed, sys) := acc
  let (req, freshId) := p
  let uniqueKey := jsOr req.uniqueKey (computeUniqueKey req.url (jsOr req.method "GET") req.payload)
  match sys.requests.find? (fun r => r.queueId == qId && r.uniqueKey == uniqueKey) with
  | some existing =>
      (processed ++ [{ requestId := existing.id, uniqueKey := uniqueKey,
                       wasAlreadyPresent := true,
                       wasAlreadyHandled := existing.handledAt.isSome }], sys)
  | none =>
      let newReq : RequestRow :=
        { id := freshId, queueId := qId, uniqueKey := uniqueKey, url := req.url,
          method := jsOr req.method "GET", payload := req.payload, retryCount := 0,
          noRetry := false, errorMessages := none, headers := none,
          userData := req.userData, handledAt := none, orderNo := sys.nextOrderNo,
          lockedUntil := none, lockedBy := none }
      (processed ++ [{ requestId := freshId, uniqueKey := uniqueKey,
                       wasAlreadyPresent := false, wasAlreadyHandled := false }],
       { sys with requests := sys.requests ++ [newReq], nextOrderNo := sys.nextOrderNo + 1 })

/-- AddRequestsBatch. The route runs the per-item dedup-check-and-INSERT
statements in chunks of independent queries; this embedding serialises them
in list order (one interleaving of those statements). freshIds supplies one
nanoid per item. The single count UPDATE at the end adds the number of newly
inserted requests to both total and pending. -/
def addRequestsBatch (sys0 : Sys) (queueId : String) (items : List BatchItem)
    (freshQueueId : String) (freshIds : List String) : List BatchProcessed × Sys :=
  let gc := getOrCreateQueue sys0 queueId freshQueueId
  let qId := gc.1.id
  let folded := (items.zip freshIds).foldl (batchStep qId) ([], gc.2)
  let processed := folded.1
  let newCount := (processed.filter (fun r => !r.wasAlreadyPresent)).length
  let sys :=
    if newCount > 0 then
      updateQueue folded.2 qId (fun q =>
        { q with totalRequestCount := q.totalRequestCount + (newCount : Int),
                 pendingRequestCount := q.pendingRequestCount + (newCount : Int) })
    else folded.2
  (processed, sys)

/-! ## Actor runs (routes/runs.ts) -/

/-- A row of the runs table (the columns the run routes touch). -/
structure RunRow where
  id : String
  status : String
  statusMessage : Option String
  startedAt : Option Nat
  finishedAt : Option Nat
  defaultDatasetId : Option String
  defaultKeyValueStoreId : Option String
  defaultRequestQueueId : Option String
  createdAt : Nat
  deriving Repr, DecidableEq

/-- The status list treated as terminal by the status-update route. -/
def terminalStatuses : List String := ["SUCCEEDED", "FAILED", "ABORTED", "TIMED-OUT"]

/-- The SET clauses of PUT /actor-runs/:runId: apply the status when
present, stamping finished_at = now only when the new status is terminal
(finished_at is never cleared here), and apply the status message when
present. No transition validation of any kind is performed. -/
def applyRunUpdate (status statusMessage : Option String) (now : Nat) (r : RunRow) : RunRow :=
  let r :=
    match status with
    | some s =>
        { r with status := s,
                 finishedAt := if s ∈ terminalStatuses then some now else r.finishedAt }
    | none => r
  match statusMessage with
  | some m => { r with statusMessage := some m }
  | none => r

/-- PUT /actor-runs/:runId (UpdateStatus): UPDATE ... WHERE id = runId
RETURNING *; 404 when no row matches. -/
def updateRunStatus (runs : List RunRow) (runId : String) (status statusMessage : Option String)
    (now : Nat) : Except ApiError RunRow × List RunRow :=
  match runs.find? (fun r => r.id == runId) with
  | none => (.error (.notFound "Run not found"), runs)
  | some r =>
      let updated := applyRunUpdate status statusMessage now r
      (.ok updated, runs.map (fun x => if x.id = runId then applyRunUpdate status statusMessage now x else x))

/-- POST /actor-runs/:runId/abort: UPDATE ... WHERE id = runId AND
status = RUNNING; 404 when no row matches. -/
def abortRun (runs : List RunRow) (runId : String) (now : Nat) :
    Except ApiError RunRow × List RunRow :=
  match runs.find? (fun r => r.id == runId && r.status == "RUNNING") with
  | none => (.error (.notFound "Run not found or already finished"), runs)
  | some r =>
      let updated := { r with status := "ABORTED", finishedAt := some now }
      (.ok updated,
       runs.map (fun x => if x.id = runId ∧ x.status = "RUNNING"
         then { x with status := "ABORTED", finishedAt := some now } else x))

/-- The status list the resurrect route accepts (SUCCEEDED is absent). -/
def resurrectableStatuses : List String := ["FAILED", "ABORTED", "TIMED-OUT"]

/-- POST /actor-runs/:runId/resurrect: UPDATE runs SET status = RUNNING,
finished_at = NULL WHERE id = runId AND status IN (FAILED, ABORTED,
TIMED-OUT); 404 when no row matches. The storage-id columns are untouched. -/
def resurrectRun (runs : List RunRow) (runId : String) :
    Except ApiError RunRow × List RunRow :=
  match runs.find? (fun r => r.id == runId && decide (r.status ∈ resurrectableStatuses)) with
  | none => (.error (.notFound "Run not found or not in terminal state"), runs)
  | some r =>
      let updated := { r with status := "RUNNING", finishedAt := none }
      (.ok updated,
       runs.map (fun x => if x.id = runId ∧ x.status ∈ resurrectableStatuses
         then { x with status := "RUNNING", finishedAt := none } else x))

/-- The finished-at invariant of the run lifecycle: finishedAt is set
exactly on the terminal statuses. -/
def runFinishedInv (r : RunRow) : Prop :=
  r.finishedAt.isSome ↔ r.status ∈ terminalStatuses

/-! ## Datasets and the blob store (routes registry.ts dataset part, storage/s3.ts) -/

/-- A row of the datasets table. -/
structure DatasetRow where
  id : String
  name : Option String
  itemCount : Nat
  deriving Repr, DecidableEq

/-- A stored blob object datasets/(datasetId)/(9-digit index).json holding
one serialized item. -/
structure BlobObject where
  datasetId : String
  index : Nat
  body : String
  deriving Repr, DecidableEq

/-- The dataset table plus the blob store. -/
structure DataStore where
  datasets : List DatasetRow
  objects : List BlobObject
  deriving Repr, DecidableEq

/-- SELECT * FROM datasets WHERE id = x OR name = x (first row). -/
def findDataset (st : DataStore) (datasetId : String) : Option DatasetRow :=
  st.datasets.find? (fun d => d.id == datasetId || d.name == some datasetId)

/-- putDatasetItem: a blob PUT, overwriting the object at the same key. -/
def putDatasetItem (st : DataStore) (datasetId : String) (itemIndex : Nat) (body : String) :
    DataStore :=
  { st with objects :=
      st.objects.filter (fun o => !(o.datasetId == datasetId && o.index == itemIndex)) ++
        [⟨datasetId, itemIndex, body⟩] }

/-- Insert into a list kept ascending by object index. -/
def insertByIndex (o : BlobObject) : List BlobObject → List BlobObject
  | [] => [o]
  | x :: xs => if o.index ≤ x.index then o :: x :: xs else x :: insertByIndex o xs

/-- Objects of a dataset in key order. S3 lists keys lexicographically and
the 9-digit zero padding makes that the numeric index order. -/
def sortByIndex (l : List BlobObject) : List BlobObject := l.foldr insertByIndex []

/-- listDatasetItems: lists every object under the dataset prefix, takes
total from that listing, and fetches the offset/limit page. -/
def listDatasetItems (st : DataStore) (datasetId : String) (offset limit : Nat) :
    List String × Nat :=
  let all := sortByIndex (st.objects.filter (fun o => o.datasetId == datasetId))
  let total := all.length
  ((((all.drop offset).take limit)).map (fun o => o.body), total)

/-- One chunk of PushItems sub-writes. The route issues the chunk writes
concurrently and awaits them all, so every non-failing write of the chunk
lands even when another write of the same chunk fails; a failure stops the
later chunks. failAt says which item positions fail to write. -/
def chunkWrite (dsId : String) (startCount : Nat) (failAt : Nat → Bool)
    (st : DataStore) (p : Nat × String) : DataStore :=
  if failAt p.1 then st else putDatasetItem st dsId (startCount + p.1) p.2

def pushChunkStep (dsId : String) (startCount : Nat) (failAt : Nat → Bool)
    (acc : Bool × DataStore) (chunk : List (Nat × String)) : Bool × DataStore :=
  if !acc.1 then acc
  else
    let st := chunk.foldl (chunkWrite dsId startCount failAt) acc.2
    (!chunk.any (fun p => failAt p.1), st)

/-- The get-or-create-dataset prelude of PushItems, mirroring the queue
auto-create: a fresh unnamed dataset for the literal id 'default', else a
dataset named and keyed by the supplied id. -/
def getOrCreateDataset (st : DataStore) (datasetId freshId : String) : DatasetRow × DataStore :=
  match findDataset st datasetId with
  | some d => (d, st)
  | none =>
      let id := if datasetId = "default" then freshId else datasetId
      let name := if datasetId = "default" then none else some datasetId
      match st.datasets.find? (fun d => d.id == id) with
      | some d => (d, st)
      | none =>
          let d : DatasetRow := ⟨id, name, 0⟩
          (d, { st with datasets := st.datasets ++ [d] })

/-- PushItems (POST /datasets/:datasetId/items). Auto-creates the dataset
like the queue routes do, writes the items at indices itemCount, ... in
chunks of 50, and only after every write succeeded advances item_count; a
failed write surfaces as an unhandled rejection (HTTP 500) and skips the
count UPDATE, leaving already-landed writes in the blob store. -/
def pushItems (st0 : DataStore) (datasetId : String) (items : List String)
    (freshId : String) (failAt : Nat → Bool) : Except ApiError Unit × DataStore :=
  let gc := getOrCreateDataset st0 datasetId freshId
  let ds := gc.1
  let startCount := ds.itemCount
  let idxItems := items.enum
  let chunks := (List.range ((idxItems.length + 49) / 50)).map
    (fun c => (idxItems.drop (c * 50)).take 50)
  let folded := chunks.foldl (pushChunkStep ds.id startCount failAt) (true, gc.2)
  let st := folded.2
  if folded.1 then
    (.ok (),
     { st with datasets := st.datasets.map (fun d =>
         if d.id = ds.id then { d with itemCount := startCount + items.length } else d) })
  else (.error .internalError, st)

/-! ## Runner job queue (processNextRun) -/

/-- A row of runs as the runner sees it. -/
structure DispatchRun where
  id : String
  status : String
  createdAt : Nat
  startedAt : Option Nat
  deriving Repr, DecidableEq

/-- Insert into a list kept ascending by created_at. -/
def insertByCreated (r : DispatchRun) : List DispatchRun → List DispatchRun
  | [] => [r]
  | x :: xs => if r.createdAt ≤ x.createdAt then r :: x :: xs else x :: insertByCreated r xs

/-- ORDER BY created_at ASC. -/
def sortByCreated (l : List DispatchRun) : List DispatchRun := l.foldr insertByCreated []

/-- The first statement of processNextRun: SELECT * FROM runs WHERE
status = READY ORDER BY created_at ASC LIMIT 1 FOR UPDATE SKIP LOCKED,
issued through pool.query. pg runs it in autocommit, so the implicit
transaction commits when the statement ends and the FOR UPDATE row lock is
released before the worker runs its next statement; the read is therefore
one atomic step on its own. -/
def selectReadyRun (runs : List DispatchRun) : Option DispatchRun :=
  (sortByCreated (runs.filter (fun r => r.status == "READY"))).head?

/-- The second statement of processNextRun: UPDATE runs SET
status = RUNNING, started_at = now WHERE id = runId, again its own
autocommit transaction. -/
def setRunRunning (runs : List DispatchRun) (runId : String) (now : Nat) : List DispatchRun :=
  runs.map (fun r => if r.id = runId then { r with status := "RUNNING", startedAt := some now } else r)

/-- Two worker processes interleaved on one READY run: both issue the
SELECT before either issues the UPDATE. Returns what each worker claimed
and the final table. -/
def twoWorkerDispatch (runs0 : List DispatchRun) (now : Nat) :
    Option DispatchRun × Option DispatchRun × List DispatchRun :=
  let aSel := selectReadyRun runs0
  let bSel := selectReadyRun runs0
  let runs1 := match aSel with | some r => setRunRunning runs0 r.id now | none => runs0
  let runs2 := match bSel with | some r => setRunRunning runs1 r.id now | none => runs1
  (aSel, bSel, runs2)

/-! ## Invariants -/

/-- The queue counter equation. -/
def queueInv (q : QueueRow) : Prop :=
  q.pendingRequestCount = q.totalRequestCount - q.handledRequestCount

/-- Every queue row satisfies the counter equation. -/
def sysInv (sys : Sys) : Prop := ∀ q ∈ sys.queues, queueInv q

/-! ## Concrete scenarios used by the closed theorems and witnesses -/

/-- An AddRequest body holding only a URL. -/
def plainBody (url : String) : AddRequestBody :=
  { url := url, uniqueKey := none, method := none, payload := none,
    headers := none, userData := none, noRetry := none }

/-- The empty request-queue system (BIGSERIAL sequences start at 1). -/
def emptySys : Sys := ⟨[], [], 1, [], []⟩

/-- State after AddRequest of r1 without forefront on a fresh queue Q. -/
def forefrontSys1 : Sys := (addRequest emptySys "Q" false (plainBody "http://a") "QF1" "R1").2

/-- State after the subsequent AddRequest of r2 with forefront = true. -/
def forefrontSys2 : Sys := (addRequest forefrontSys1 "Q" true (plainBody "http://b") "QF2" "R2").2

/-- A request R in queue Q whose lease is held by client W1 until t = 100. -/
def lockedReq : RequestRow :=
  { id := "R", queueId := "Q", uniqueKey := "k", url := "http://a", method := "GET",
    payload := none, retryCount := 0, noRetry := false, errorMessages := none,
    headers := none, userData := none, handledAt := none, orderNo := 1,
    lockedUntil := some 100, lockedBy := some "W1" }

/-- The queue row of the locked-request scenario. -/
def lockedQueue : QueueRow := ⟨"Q", none, 1, 0, 1, false⟩

/-- System scenario: one pending request locked by W1 until t = 100, matched
by a live Redis lock. -/
def lockedSys : Sys := ⟨[lockedQueue], [lockedReq], 2, [], [⟨"Q", "R", "W1", 100⟩]⟩

/-- A patch that marks the request handled at t = 40. -/
def handledPatch : UpdateRequestBody :=
  { handledAt := some 40, retryCount := none, errorMessages := none, userData := none }

/-- A run in the SUCCEEDED terminal state with all storage handles set. -/
def succeededRun : RunRow :=
  { id := "run1", status := "SUCCEEDED", statusMessage := none, startedAt := some 1,
    finishedAt := some 2, defaultDatasetId := some "d", defaultKeyValueStoreId := some "k",
    defaultRequestQueueId := some "q", createdAt := 0 }

/-- A dataset with no items yet and an empty blob store. -/
def emptyDataset : DataStore := ⟨[⟨"ds1", none, 0⟩], []⟩

/-- PushItems of two items where the second sub-write fails. -/
def failingPush : Except ApiError Unit × DataStore :=
  pushItems emptyDataset "ds1" ["a", "b"] "F" (fun i => i == 1)

/-- A single READY run awaiting dispatch. -/
def readyRun : DispatchRun := ⟨"r1", "READY", 0, none⟩

/-! ## Theorems -/

/-! ### Helper lemmas -/

theorem sysInv_of_queues_eq {sys sys' : Sys} (h : sys'.queues = sys.queues)
    (hi : sysInv sys) : sysInv sys' := by
  intro q hq
  rw [h] at hq
  exact hi q hq

theorem lockRequest_queues (sys : Sys) (now : Nat) (a b c : String) (n : Nat) :
    ((lockRequest sys now a b c n).2).queues = sys.queues := by
  unfold lockRequest
  split <;> rfl

theorem releaseLock_queues (sys : Sys) (now : Nat) (a b c : String) :
    ((releaseLock sys now a b c).2).queues = sys.queues := by
  unfold releaseLock
  split
  · split <;> rfl
  · rfl

theorem releaseLock_requests (sys : Sys) (now : Nat) (a b c : String) :
    ((releaseLock sys now a b c).2).requests = sys.requests := by
  unfold releaseLock
  split
  · split <;> rfl
  · rfl

theorem updateRequestRow_queues (sys : Sys) (rId : String) (f : RequestRow → RequestRow) :
    (updateRequestRow sys rId f).queues = sys.queues := rfl

theorem updateRequestRow_requests (sys : Sys) (rId : String) (f : RequestRow → RequestRow) :
    (updateRequestRow sys rId f).requests =
      sys.requests.map (fun x => if x.id = rId then f x else x) := rfl

theorem addToQueueHead_queues (sys : Sys) (a b : String) (s : Int) :
    (addToQueueHead sys a b s).queues = sys.queues := rfl

theorem addToQueueHead_requests (sys : Sys) (a b : String) (s : Int) :
    (addToQueueHead sys a b s).requests = sys.requests := rfl

theorem removeFromQueueHead_requests (sys : Sys) (a b : String) :
    (removeFromQueueHead sys a b).requests = sys.requests := rfl

theorem removeFromQueueHead_queues (sys : Sys) (a b : String) :
    (removeFromQueueHead sys a b).queues = sys.queues := rfl

theorem updateQueue_requests (sys : Sys) (qId : String) (f : QueueRow → QueueRow) :
    (updateQueue sys qId f).requests = sys.requests := rfl

theorem updateQueue_queues (sys : Sys) (qId : String) (f : QueueRow → QueueRow) :
    (updateQueue sys qId f).queues =
      sys.queues.map (fun x => if x.id = qId then f x else x) := rfl

theorem sysInv_updateQueue {sys : Sys} (qId : String) {f : QueueRow → QueueRow}
    (hi : sysInv sys) (hf : ∀ q, queueInv q → queueInv (f q)) :
    sysInv (updateQueue sys qId f) := by
  intro q hq
  simp only [updateQueue, List.mem_map] at hq
  obtain ⟨q0, hq0, rfl⟩ := hq
  split
  · exact hf q0 (hi q0 hq0)
  · exact hi q0 hq0

theorem sysInv_getOrCreateQueue {sys : Sys} (queueId freshId : String) (hi : sysInv sys) :
    sysInv (getOrCreateQueue sys queueId freshId).2 := by
  simp only [getOrCreateQueue]
  cases hfq : findQueue sys queueId with
  | some q => exact hi
  | none =>
    cases hfind : sys.queues.find?
        (fun q => q.id == if queueId = "default" then freshId else queueId) with
    | some q => exact hi
    | none =>
      intro q hq
      simp only [List.mem_append, List.mem_singleton] at hq
      rcases hq with hq | rfl
      · exact hi q hq
      · simp [queueInv]

theorem sysInv_addRequest (sys : Sys) (queueId : String) (forefront : Bool)
    (body : AddRequestBody) (fq fr : String) (hi : sysInv sys) :
    sysInv (addRequest sys queueId forefront body fq fr).2 := by
  have hg := sysInv_getOrCreateQueue queueId fq hi
  simp only [addRequest]
  split
  · exact hg
  · exact sysInv_updateQueue _ (sysInv_of_queues_eq rfl hg)
      (fun q hq => by simp only [queueInv] at *; omega)

theorem batchStep_queues (qId : String) (acc : List BatchProcessed × Sys) (p : BatchItem × String) :
    ((batchStep qId acc p).2).queues = acc.2.queues := by
  obtain ⟨processed, sys⟩ := acc
  obtain ⟨req, freshId⟩ := p
  simp only [batchStep]
  split <;> rfl

theorem batchFold_queues (qId : String) (l : List (BatchItem × String))
    (acc : List BatchProcessed × Sys) :
    ((l.foldl (batchStep qId) acc).2).queues = acc.2.queues := by
  induction l generalizing acc with
  | nil => rfl
  | cons x xs ih => rw [List.foldl_cons, ih, batchStep_queues]

theorem sysInv_addRequestsBatch (sys : Sys) (queueId : String) (items : List BatchItem)
    (fq : String) (fids : List String) (hi : sysInv sys) :
    sysInv (addRequestsBatch sys queueId items fq fids).2 := by
  have hg := sysInv_getOrCreateQueue queueId fq hi
  have hfold : sysInv ((items.zip fids).foldl
      (batchStep (getOrCreateQueue sys queueId fq).1.id)
      ([], (getOrCreateQueue sys queueId fq).2)).2 :=
    sysInv_of_queues_eq (batchFold_queues _ _ _) hg
  simp only [addRequestsBatch]
  split
  · exact sysInv_updateQueue _ hfold (fun q hq => by simp only [queueInv] at *; omega)
  · exact hfold

theorem sysInv_updateRequest (sys : Sys) (now : Nat) (qid rid : String)
    (updates : UpdateRequestBody) (ck : Option String) (hi : sysInv sys) :
    sysInv (updateRequest sys now qid rid updates ck).2 := by
  simp only [updateRequest]
  split
  · exact hi
  · split
    · exact hi
    · split
      · exact hi
      · split
        · exact sysInv_updateQueue _
            (sysInv_of_queues_eq (by rw [releaseLock_queues, updateRequestRow_queues]) hi)
            (fun q hq => by simp only [queueInv] at *; omega)
        · exact sysInv_of_queues_eq (by rw [releaseLock_queues, updateRequestRow_queues]) hi

theorem putDatasetItem_datasets (st : DataStore) (d : String) (i : Nat) (b : String) :
    (putDatasetItem st d i b).datasets = st.datasets := rfl

theorem chunkWriteFold_datasets (dsId : String) (startCount : Nat) (failAt : Nat → Bool)
    (chunk : List (Nat × String)) (st : DataStore) :
    (chunk.foldl (chunkWrite dsId startCount failAt) st).datasets = st.datasets := by
  induction chunk generalizing st with
  | nil => rfl
  | cons x xs ih =>
    rw [List.foldl_cons, ih]
    simp only [chunkWrite]
    split <;> rfl

theorem pushChunkStep_datasets (dsId : String) (startCount : Nat) (failAt : Nat → Bool)
    (acc : Bool × DataStore) (chunk : List (Nat × String)) :
    ((pushChunkStep dsId startCount failAt acc chunk).2).datasets = acc.2.datasets := by
  simp only [pushChunkStep]
  split
  · rfl
  · exact chunkWriteFold_datasets dsId startCount failAt chunk acc.2

theorem pushFold_datasets (dsId : String) (startCount : Nat) (failAt : Nat → Bool)
    (chunks : List (List (Nat × String))) (acc : Bool × DataStore) :
    ((chunks.foldl (pushChunkStep dsId startCount failAt) acc).2).datasets = acc.2.datasets := by
  induction chunks generalizing acc with
  | nil => rfl
  | cons c cs ih => rw [List.foldl_cons, ih, pushChunkStep_datasets]

theorem map_id_of_mem {α : Type} (l : List α) (f : α → α) (h : ∀ x ∈ l, f x = x) :
    l.map f = l := by
  induction l with
  | nil => rfl
  | cons a t ih =>
    rw [List.map_cons, h a (List.mem_cons_self a t),
      ih (fun x hx => h x (List.mem_cons_of_mem a hx))]

/-- C2: every AddRequest, AddRequestsBatch and UpdateRequest preserves the
counter equation pendingRequestCount = totalRequestCount -
handledRequestCount on every queue row: adds bump total and pending
together by the number of new inserts, and a first transition to handled
bumps handled and drops pending by one. -/
theorem c2_counter_invariant_preserved
    (sys : Sys) (hi : sysInv sys)
    (q1 : String) (ff : Bool) (body : AddRequestBody) (fq fr : String)
    (q2 : String) (items : List BatchItem) (fq2 : String) (fids : List String)
    (now : Nat) (q3 rid : String) (updates : UpdateRequestBody) (ck : Option String) :
    sysInv (addRequest sys q1 ff body fq fr).2 ∧
    sysInv (addRequestsBatch sys q2 items fq2 fids).2 ∧
    sysInv (updateRequest sys now q3 rid updates ck).2 :=
  ⟨sysInv_addRequest sys q1 ff body fq fr hi,
   sysInv_addRequestsBatch sys q2 items fq2 fids hi,
   sysInv_updateRequest sys now q3 rid updates ck hi⟩

/-- C2 witness: the invariant survives a concrete add, batch add, and
handling update on the locked-request scenario. -/
theorem c2_counter_invariant_witness :
    sysInv (addRequest lockedSys "Q" false (plainBody "http://c") "F1" "F2").2 ∧
    sysInv (addRequestsBatch lockedSys "Q" [] "F1" []).2 ∧
    sysInv (updateRequest lockedSys 40 "Q" "R" handledPatch (some "W1")).2 :=
  c2_counter_invariant_preserved lockedSys
    (by simp [sysInv, queueInv, lockedSys, lockedQueue]) "Q" false (plainBody "http://c")
    "F1" "F2" "Q" [] "F1" [] 40 "Q" "R" handledPatch (some "W1")

/-- C1: after AddRequest(Q, r1) and AddRequest(Q, r2, forefront = true),
GetHead lists r1 BEFORE r2 — not r2 first as claimed. The forefront-negated
order number (score -2 for R2) reaches only the Redis head cache, which the
head route never reads; the SQL order_no stays FIFO. -/
theorem c1_forefront_getHead_fifo :
    (getHead forefrontSys2 5 "Q" 100).map (List.map RequestRow.id) = .ok ["R1", "R2"] ∧
    forefrontSys2.redisHead = [⟨"Q", "R2", -2⟩, ⟨"Q", "R1", 1⟩] := by
  exact ⟨rfl, rfl⟩

/-- C4: for an UpdateRequest on a request whose lease has not expired, a
clientKey differing from the lock holder yields the 409 locked-by-other
error with the whole state unchanged (handledAt included); a matching
clientKey applies the patch, clears the lease, and bumps the queue counters
exactly when handledAt transitions from null to a value. -/
theorem c4_updateRequest_lock_semantics
    (sys : Sys) (now : Nat) (queueId requestId : String)
    (updates : UpdateRequestBody) (clientKey : Option String)
    (q : QueueRow) (r : RequestRow) (tl : Nat) (w : String)
    (hq : findQueue sys queueId = some q)
    (hr : sys.requests.find? (fun x => x.queueId == q.id && x.id == requestId) = some r)
    (htl : r.lockedUntil = some tl) (hnow : now < tl) (hw : r.lockedBy = some w) :
    (clientKey ≠ some w →
      updateRequest sys now queueId requestId updates clientKey =
        (.error .lockedByOther, sys)) ∧
    (clientKey = some w →
      (updateRequest sys now queueId requestId updates clientKey).1 =
        .ok ⟨requestId, true, r.handledAt.isSome⟩ ∧
      (updateRequest sys now queueId requestId updates clientKey).2.requests =
        sys.requests.map (fun x => if x.id = requestId then applyRequestPatch updates x else x) ∧
      (updateRequest sys now queueId requestId updates clientKey).2.queues =
        (if !r.handledAt.isSome && updates.handledAt.isSome then
          sys.queues.map (fun qq => if qq.id = r.queueId then
            { qq with handledRequestCount := qq.handledRequestCount + 1,
                      pendingRequestCount := qq.pendingRequestCount - 1 } else qq)
         else sys.queues)) := by
  simp only [updateRequest, hq, hr, htl, hw]
  constructor
  · intro hck
    simp [hnow, hck]
  · intro hck
    subst hck
    rw [if_neg (by simp)]
    refine ⟨rfl, ?_, ?_⟩
    · cases hcond : (!r.handledAt.isSome && updates.handledAt.isSome) <;>
        simp [hcond, removeFromQueueHead_requests, updateQueue_requests, releaseLock_requests,
          updateRequestRow_requests]
    · cases hcond : (!r.handledAt.isSome && updates.handledAt.isSome) <;>
        simp [hcond, removeFromQueueHead_queues, updateQueue_queues, releaseLock_queues,
          updateRequestRow_queues]

/-- C4 witness: in the locked scenario (lease held by W1 until t = 100,
now = 40), W2's update is rejected 409 with the state untouched, and W1's
handling update is accepted. -/
theorem c4_updateRequest_lock_witness :
    updateRequest lockedSys 40 "Q" "R" handledPatch (some "W2") =
      (.error .lockedByOther, lockedSys) ∧
    (updateRequest lockedSys 40 "Q" "R" handledPatch (some "W1")).1 =
      .ok ⟨"R", true, false⟩ := by
  constructor
  · exact (c4_updateRequest_lock_semantics lockedSys 40 "Q" "R" handledPatch (some "W2")
      lockedQueue lockedReq 100 "W1" rfl rfl rfl (by decide) rfl).1 (by decide)
  · exact ((c4_updateRequest_lock_semantics lockedSys 40 "Q" "R" handledPatch (some "W1")
      lockedQueue lockedReq 100 "W1" rfl rfl rfl (by decide) rfl).2 rfl).1

/-- C5: a ProlongLock call by W2 on a request whose live lease is held by W1
succeeds with the new expiry and extends locked_until in SQL, instead of
failing NOT_LOCK_OWNER; the repo's own Redis prolongLock helper refuses the
same call, but the route never consults it. -/
theorem c5_prolongLock_no_owner_check :
    (prolongLockRoute lockedSys 40 "Q" "R" "W2" 60).1 = .ok 100 ∧
    ((prolongLockRoute lockedSys 40 "Q" "R" "W2" 60).2.requests.map RequestRow.lockedUntil)
      = [some 100] ∧
    (prolongLock lockedSys 40 "Q" "R" "W2" 60).1 = false := by
  exact ⟨rfl, rfl, rfl⟩

/-- C8 (amended): when a PushItems sub-write fails the call errors (a
generic 500, carrying no PARTIAL_WRITE code) and no dataset row changes, so
itemCount is not advanced; the already-landed sub-writes stay in the blob
store (the counterexample shows ListItems reporting them). -/
theorem c8_push_items_amended (st : DataStore) (datasetId : String) (items : List String)
    (freshId : String) (failAt : Nat → Bool)
    (h : (pushItems st datasetId items freshId failAt).1 = .error .internalError) :
    (pushItems st datasetId items freshId failAt).2.datasets =
      (getOrCreateDataset st datasetId freshId).2.datasets := by
  revert h
  simp only [pushItems]
  split
  · intro h
    simp at h
  · intro _
    exact pushFold_datasets _ _ _ _ _

/-- C8 witness: the failing two-item push leaves the dataset rows exactly
as the auto-create step left them (itemCount still 0). -/
theorem c8_push_items_amended_witness :
    (pushItems emptyDataset "ds1" ["a", "b"] "F" (fun i => i == 1)).2.datasets =
      (getOrCreateDataset emptyDataset "ds1" "F").2.datasets :=
  c8_push_items_amended emptyDataset "ds1" ["a", "b"] "F" (fun i => i == 1) rfl

/-- C9: with the SELECT ... FOR UPDATE SKIP LOCKED and the UPDATE running
as separate autocommit statements, two workers that both SELECT before
either UPDATEs each claim the same READY run, so two workers perform the
dispatch of one run. -/
theorem c9_dispatch_double_claim :
    (twoWorkerDispatch [readyRun] 7).1 = some readyRun ∧
    (twoWorkerDispatch [readyRun] 7).2.1 = some readyRun ∧
    (twoWorkerDispatch [readyRun] 7).2.2 = [⟨"r1", "RUNNING", 0, some 7⟩] := by
  exact ⟨rfl, rfl, rfl⟩

/-- C3 counterexample: a POST request without a payload gets the plain
normalized URL as its unique key, not the claimed extended
method(hash8(payload)) form. -/
theorem c3_uniqueKey_nonGET_no_payload_cex :
    computeUniqueKey "http://x" "POST" none = "http://x" ∧
    (computeUniqueKey "http://x" "POST" none).toList.take 5 ≠ ("POST" ++ "(").toList := by
  exact ⟨rfl, by decide⟩

/-- C3 (amended): the derived unique key is the plain normalized URL
(lower, trim, minus trailing slash and fragment) whenever the method is GET
or no non-empty payload is supplied; only a non-GET method together with a
non-empty payload produces the extended method(hash8(payload)):url form,
with hash8 the first 8 chars of the base64 SHA-256 of the payload. -/
theorem c3_uniqueKey_amended (url method p : String) (hm : method ≠ "GET") (hp : p ≠ "") :
    computeUniqueKey url method (some p) =
      method ++ "(" ++ hash8 p ++ "):" ++ normalizeUrl url ∧
    computeUniqueKey url "GET" (some p) = normalizeUrl url ∧
    computeUniqueKey url method none = normalizeUrl url ∧
    computeUniqueKey url method (some "") = normalizeUrl url ∧
    hash8 p = (base64Encode (sha256 (utf8Bytes p))).take 8 := by
  refine ⟨?_, ?_, rfl, ?_, rfl⟩
  · simp only [computeUniqueKey]
    rw [if_pos ⟨hm, hp⟩]
  · simp only [computeUniqueKey]
    rw [if_neg (by simp)]
  · simp only [computeUniqueKey]
    rw [if_neg (by simp)]

/-- C3 witness: a POST with payload abc gets the extended form on the
normalized URL. -/
theorem c3_uniqueKey_amended_witness :
    computeUniqueKey "http://x" "POST" (some "abc") =
      "POST" ++ "(" ++ hash8 "abc" ++ "):" ++ normalizeUrl "http://x" :=
  (c3_uniqueKey_amended "http://x" "POST" "abc" (by decide) (by decide)).1

/-- C6 counterexample: ResurrectRun on a SUCCEEDED run fails with the 404
not-in-terminal-state error and leaves the row unchanged, although the
claim says every terminal state, SUCCEEDED included, resurrects. -/
theorem c6_resurrect_succeeded_cex :
    (resurrectRun [succeededRun] "run1").1 =
      .error (.notFound "Run not found or not in terminal state") ∧
    (resurrectRun [succeededRun] "run1").2 = [succeededRun] := by
  exact ⟨rfl, rfl⟩

/-- C6 (amended): ResurrectRun transitions exactly the FAILED, ABORTED and
TIMED-OUT runs to RUNNING with finishedAt cleared and the storage handles
untouched; every other run — SUCCEEDED included — gets the 404
not-in-terminal-state error with the table unchanged. -/
theorem c6_resurrect_amended (runs : List RunRow) (runId : String) :
    (∀ r, runs.find? (fun x => x.id == runId && decide (x.status ∈ resurrectableStatuses)) =
        some r →
      (resurrectRun runs runId).1 = .ok { r with status := "RUNNING", finishedAt := none } ∧
      (resurrectRun runs runId).2.map
          (fun x => (x.defaultDatasetId, x.defaultKeyValueStoreId, x.defaultRequestQueueId)) =
        runs.map
          (fun x => (x.defaultDatasetId, x.defaultKeyValueStoreId, x.defaultRequestQueueId))) ∧
    (runs.find? (fun x => x.id == runId && decide (x.status ∈ resurrectableStatuses)) = none →
      resurrectRun runs runId =
        (.error (.notFound "Run not found or not in terminal state"), runs)) := by
  constructor
  · intro r hr
    simp only [resurrectRun, hr]
    refine ⟨trivial, ?_⟩
    rw [List.map_map]
    apply List.map_congr_left
    intro x _
    by_cases hx : x.id = runId ∧ x.status ∈ resurrectableStatuses
    · simp [hx]
    · simp [if_neg hx]
  · intro hn
    simp only [resurrectRun, hn]

/-- C6 witness: a FAILED run resurrects to RUNNING with finishedAt null
(and a find-miss returns the 404 pair on the empty table). -/
theorem c6_resurrect_amended_witness :
    (resurrectRun [{ succeededRun with status := "FAILED" }] "run1").1 =
      .ok { succeededRun with status := "RUNNING", finishedAt := none } ∧
    resurrectRun [] "run1" =
      (.error (.notFound "Run not found or not in terminal state"), []) := by
  constructor
  · exact ((c6_resurrect_amended [{ succeededRun with status := "FAILED" }] "run1").1
      { succeededRun with status := "FAILED" } (by decide)).1
  · exact (c6_resurrect_amended [] "run1").2 rfl

/-- C7 (amended): UpdateStatus sets finishedAt = now exactly when the new
status is terminal and leaves finishedAt unchanged otherwise (so a
terminal-to-non-terminal update keeps it set); no transition validation
exists — any status update on an existing run is accepted; AbortRun and
ResurrectRun do preserve the finishedAt-iff-terminal invariant. -/
theorem c7_finishedAt_amended (runs : List RunRow) (runId : String) (r0 : RunRow)
    (s : String) (m : Option String) (now : Nat) :
    (s ∈ terminalStatuses → (applyRunUpdate (some s) m now r0).finishedAt = some now) ∧
    (s ∉ terminalStatuses → (applyRunUpdate (some s) m now r0).finishedAt = r0.finishedAt) ∧
    (applyRunUpdate (some s) m now r0).status = s ∧
    (∀ x, runs.find? (fun y => y.id == runId) = some x →
      (updateRunStatus runs runId (some s) m now).1 = .ok (applyRunUpdate (some s) m now x)) ∧
    ((∀ x ∈ runs, runFinishedInv x) →
      (∀ x ∈ (abortRun runs runId now).2, runFinishedInv x) ∧
      (∀ x ∈ (resurrectRun runs runId).2, runFinishedInv x)) := by
  refine ⟨?_, ?_, ?_, ?_, ?_⟩
  · intro hs
    cases m <;> simp [applyRunUpdate, hs]
  · intro hs
    cases m <;> simp [applyRunUpdate, hs]
  · cases m <;> simp [applyRunUpdate]
  · intro x hx
    simp only [updateRunStatus, hx]
  · intro hinv
    constructor
    · intro x hx
      simp only [abortRun] at hx
      rcases hfind : runs.find? (fun r => r.id == runId && r.status == "RUNNING") with _ | r <;>
          rw [hfind] at hx
      · exact hinv x hx
      · simp only [List.mem_map] at hx
        obtain ⟨y, hy, rfl⟩ := hx
        by_cases hc : y.id = runId ∧ y.status = "RUNNING"
        · simp [hc, runFinishedInv, terminalStatuses]
        · rw [if_neg hc]
          exact hinv y hy
    · intro x hx
      simp only [resurrectRun] at hx
      rcases hfind : runs.find?
          (fun r => r.id == runId && decide (r.status ∈ resurrectableStatuses)) with _ | r <;>
          rw [hfind] at hx
      · exact hinv x hx
      · simp only [List.mem_map] at hx
        obtain ⟨y, hy, rfl⟩ := hx
        by_cases hc : y.id = runId ∧ y.status ∈ resurrectableStatuses
        · simp [hc, runFinishedInv, terminalStatuses]
        · rw [if_neg hc]
          exact hinv y hy

/-- C7 witness: a FAILED update stamps finishedAt, a RUNNING update on the
SUCCEEDED run keeps the stale finishedAt, and aborting preserves the
invariant on a concrete table. -/
theorem c7_finishedAt_amended_witness :
    (applyRunUpdate (some "FAILED") none 9 succeededRun).finishedAt = some 9 ∧
    (applyRunUpdate (some "RUNNING") none 9 succeededRun).finishedAt = some 2 ∧
    (∀ x ∈ (abortRun [succeededRun] "run1" 9).2, runFinishedInv x) := by
  refine ⟨?_, ?_, ?_⟩
  · exact (c7_finishedAt_amended [succeededRun] "run1" succeededRun "FAILED" none 9).1
      (by decide)
  · exact (c7_finishedAt_amended [succeededRun] "run1" succeededRun "RUNNING" none 9).2.1
      (by decide)
  · exact ((c7_finishedAt_amended [succeededRun] "run1" succeededRun "FAILED" none 9).2.2.2.2
      (by intro x hx; simp only [List.mem_singleton] at hx; subst hx
          simp [runFinishedInv, succeededRun, terminalStatuses])).1

/-- C7 counterexample: updating a SUCCEEDED run (finishedAt set) to RUNNING
is accepted — no INVALID_TRANSITION exists — and finishedAt stays set, so
the resulting run violates the finishedAt-iff-terminal invariant. -/
theorem c7_state_machine_cex :
    (updateRunStatus [succeededRun] "run1" (some "RUNNING") none 9).1 =
      .ok { succeededRun with status := "RUNNING" } ∧
    ¬ runFinishedInv { succeededRun with status := "RUNNING" } := by
  refine ⟨rfl, ?_⟩
  intro h
  simp [runFinishedInv, succeededRun, terminalStatuses] at h

/-- C8 counterexample: when the second of two pushed items fails to write,
the call errors and itemCount stays 0, yet the first item landed in the
blob store and ListItems reports it with total 1 — the partially-written
range is observable. -/
theorem c8_push_partial_observable_cex :
    failingPush.1 = .error .internalError ∧
    failingPush.2.datasets = [⟨"ds1", none, 0⟩] ∧
    listDatasetItems failingPush.2 "ds1" 0 100 = (["a"], 1) := by
  exact ⟨rfl, rfl, rfl⟩

/-- C10: an AddRequest (or batch add) whose queue id matches no existing
queue does not 404: it first creates the queue — fresh unnamed when the id
is the literal default, else with id and name equal to the supplied
identifier — and inserts the request into it (the response type of the add
routes has no queue-not-found case at all). -/
theorem c10_auto_create_queue
    (sys : Sys) (queueId : String) (forefront : Bool) (body : AddRequestBody)
    (freshQ freshR : String) (items : List BatchItem) (freshIds : List String)
    (h1 : findQueue sys queueId = none)
    (h2 : ∀ q ∈ sys.queues, q.id ≠ (if queueId = "default" then freshQ else queueId))
    (h3 : ∀ r ∈ sys.requests, r.queueId ≠ (if queueId = "default" then freshQ else queueId)) :
    (addRequest sys queueId forefront body freshQ freshR).2.queues =
      sys.queues ++ [⟨if queueId = "default" then freshQ else queueId,
                      if queueId = "default" then none else some queueId, 1, 0, 1, false⟩] ∧
    (addRequest sys queueId forefront body freshQ freshR).1 = ⟨freshR, false, false⟩ ∧
    (addRequest sys queueId forefront body freshQ freshR).2.requests.map RequestRow.id =
      sys.requests.map RequestRow.id ++ [freshR] ∧
    (∃ q ∈ (addRequestsBatch sys queueId items freshQ freshIds).2.queues,
      q.id = (if queueId = "default" then freshQ else queueId) ∧
      q.name = (if queueId = "default" then none else some queueId)) := by
  have hfindid : sys.queues.find?
      (fun q => q.id == if queueId = "default" then freshQ else queueId) = none := by
    rw [List.find?_eq_none]
    intro q hq
    simp [h2 q hq]
  have hgc : getOrCreateQueue sys queueId freshQ =
      (⟨if queueId = "default" then freshQ else queueId,
        if queueId = "default" then none else some queueId, 0, 0, 0, false⟩,
       { sys with queues := sys.queues ++
          [⟨if queueId = "default" then freshQ else queueId,
            if queueId = "default" then none else some queueId, 0, 0, 0, false⟩] }) := by
    simp only [getOrCreateQueue, h1, hfindid]
  have hded : ∀ uk : String, sys.requests.find?
      (fun r => r.queueId == (if queueId = "default" then freshQ else queueId) &&
        r.uniqueKey == uk) = none := by
    intro uk
    rw [List.find?_eq_none]
    intro r hr
    simp [h3 r hr]
  refine ⟨?_, ?_, ?_, ?_⟩
  · simp only [addRequest, hgc, hded]
    rw [addToQueueHead_queues, updateQueue_queues, List.map_append]
    rw [map_id_of_mem _ _ (fun q hq => if_neg (h2 q hq))]
    simp
  · simp only [addRequest, hgc, hded]
  · simp only [addRequest, hgc, hded]
    rw [addToQueueHead_requests, updateQueue_requests]
    simp
  · simp only [addRequestsBatch, hgc]
    set aid := if queueId = "default" then freshQ else queueId with haid
    set aname := (if queueId = "default" then none else some queueId : Option String) with haname
    have hq0mem : (⟨aid, aname, 0, 0, 0, false⟩ : QueueRow) ∈
        ((items.zip freshIds).foldl (batchStep aid)
          ([], { sys with queues :=
            sys.queues ++ [⟨aid, aname, 0, 0, 0, false⟩] })).2.queues := by
      rw [batchFold_queues]
      simp
    split
    · refine ⟨_, List.mem_map_of_mem _ hq0mem, ?_⟩
      simp
    · exact ⟨_, hq0mem, rfl, rfl⟩

/-- C10 witness: on the empty system, adding to the literal default queue
creates a fresh unnamed queue holding the new request, and the batch route
creates the queue as well. -/
theorem c10_auto_create_queue_witness :
    (addRequest emptySys "default" false (plainBody "http://a") "QF" "R1").2.queues =
      emptySys.queues ++ [⟨"QF", none, 1, 0, 1, false⟩] ∧
    (addRequest emptySys "default" false (plainBody "http://a") "QF" "R1").1 =
      ⟨"R1", false, false⟩ ∧
    (∃ q ∈ (addRequestsBatch emptySys "default" [] "QF" []).2.queues,
      q.id = "QF" ∧ q.name = none) := by
  have h := c10_auto_create_queue emptySys "default" false (plainBody "http://a") "QF" "R1"
    [] [] rfl (by simp [emptySys]) (by simp [emptySys])
  exact ⟨by simpa using h.1, h.2.1, by simpa using h.2.2.2⟩

end CrawleeCloud
